import Mathlib

/-!
Verification development for the pyHanko PDF security handler core.

The implementation module (pyhanko.pdf_utils.crypt) is not part of the
source excerpt; only its test suite (pyhanko_tests/test_crypt.py) and a
command-line front end are.  Every definition below is therefore a model
of the missing module, built from the specification document, and the
test suite is treated as authoritative wherever it pins a behaviour the
specification leaves open.
-/

/-- Modelled from the spec: the error taxonomy of section 7 of the
specification.  The missing module pyhanko.pdf_utils.misc declares the
exception classes; here each kind is one constructor. -/
inductive Err
  | pdfReadError
  | pdfWriteError
  | pdfStreamError
  | pdfError
  | notImplementedError
  | cryptoFormatError
  deriving DecidableEq, Repr

/-- Modelled from the spec: the AuthStatus enumeration (section 3) of the
missing module pyhanko.pdf_utils.crypt. -/
inductive AuthStatus
  | user
  | owner
  | failed
  deriving DecidableEq, Repr

/-- Modelled from the spec: the security handler state machine of section
4.3 (UNINITIALIZED, AUTHENTICATED, AUTH_FAILED). -/
inductive AuthState
  | uninitialized
  | authenticated (status : AuthStatus)
  | authFailed
  deriving DecidableEq, Repr

/-- Modelled from the spec: the auth result record of section 3, a status
plus optional permission flags (present only for user authentication). -/
structure AuthResult where
  status : AuthStatus
  permission_flags : Option Int
  deriving DecidableEq, Repr

/-- Modelled from the spec: the security handler version enumeration of
section 3 of the missing module pyhanko.pdf_utils.crypt. -/
inductive SecurityHandlerVersion
  | rc4_40
  | rc4_longer_keys
  | rc4_or_aes128
  | aes256
  | other
  deriving DecidableEq, Repr

/-- Modelled from the spec: the key length invariant of section 3.
RC4_40 forces 5 bytes, AES256 forces 32 bytes, the two intermediate
versions accept 5 to 16 bytes and reject anything else; the OTHER
version is unsupported but parseable, so no constraint is applied. -/
def SecurityHandlerVersion.check_key_length :
    SecurityHandlerVersion → Nat → Except Err Nat
  | .rc4_40, _ => .ok 5
  | .aes256, _ => .ok 32
  | .rc4_longer_keys, n =>
      if 5 ≤ n ∧ n ≤ 16 then .ok n else .error .pdfError
  | .rc4_or_aes128, n =>
      if 5 ≤ n ∧ n ≤ 16 then .ok n else .error .pdfError
  | .other, n => .ok n

/-- Modelled from the spec: an abstract invertible symmetric cipher
standing in for the RC4 and AES primitives of section 4.1 of the missing
module.  Only the round-trip invariant of section 8 (decrypt inverts
encrypt under the same key) is relied upon by the development. -/
def encryptBytes (key : List Nat) (data : List Nat) : List Nat :=
  data.map (fun b => b + (key.sum + 1))

/-- Modelled from the spec: inverse of encryptBytes under the same key. -/
def decryptBytes (key : List Nat) (data : List Nat) : List Nat :=
  data.map (fun b => b - (key.sum + 1))

/-- Modelled from the spec: the password credential of section 3
(password bytes plus an optional document id for legacy revisions). -/
structure PwdCred where
  pwd_bytes : List Nat
  id1 : Option (List Nat)
  deriving DecidableEq, Repr

/-- Modelled from the spec: the envelope credential of section 3
(recipient certificate plus private key).  Certificates and keys are
abstract tokens; the private key matching a certificate token is the
token itself. -/
structure EnvCred where
  cert : Nat
  priv_key : Nat
  deriving DecidableEq, Repr

/-- Modelled from the spec: the versioned wire form of a credential
(section 3), a credential type tag plus payload bytes. -/
structure SerialisedCredential where
  credential_type : String
  data : List Nat
  deriving DecidableEq, Repr

/-- Modelled from the spec: serialisation of a password credential
(design note in section 9: a length-prefixed password followed by the
optional id1 field). -/
def PwdCred.serialise (c : PwdCred) : SerialisedCredential :=
  { credential_type := "pwd",
    data := c.pwd_bytes.length ::
      (c.pwd_bytes ++ match c.id1 with | none => [0] | some i => 1 :: i) }

/-- Modelled from the spec: deserialisation of a password credential wire
payload; malformed input yields none (surfaced as PdfReadError by the
handler). -/
def decodePwdCred : List Nat → Option PwdCred
  | [] => none
  | n :: rest =>
      if n ≤ rest.length then
        match rest.drop n with
        | [0] => some { pwd_bytes := rest.take n, id1 := none }
        | 1 :: i => some { pwd_bytes := rest.take n, id1 := some i }
        | _ => none
      else none

/-- Modelled from the spec: serialisation of an envelope credential
(certificate and private key tokens). -/
def EnvCred.serialise (c : EnvCred) : SerialisedCredential :=
  { credential_type := "envelope", data := [c.cert, c.priv_key] }

/-- Modelled from the spec: deserialisation of an envelope credential wire
payload. -/
def decodeEnvCred : List Nat → Option EnvCred
  | [a, b] => some { cert := a, priv_key := b }
  | _ => none

/-- Modelled from the spec: the state of a standard (password based)
security handler, section 4.3: stored passwords, permission flags,
metadata flag, the file key, the authentication state and the retained
credential. -/
structure StdSecurityHandler where
  user_pw : List Nat
  owner_pw : List Nat
  perms : Int
  encrypt_metadata : Bool
  file_key : List Nat
  state : AuthState
  cred : Option PwdCred
  deriving DecidableEq, Repr

/-- Modelled from the spec: password authentication of the standard
security handler (section 4.3).  The test suite pins that when the user
and owner passwords coincide the owner path wins (the skipping-metadata
test authenticates with identical passwords and expects OWNER), so the
owner password is checked first.  Success retains the credential for
later extraction; failure latches the AUTH_FAILED state. -/
def StdSecurityHandler.authenticate (sh : StdSecurityHandler) (c : PwdCred) :
    AuthResult × StdSecurityHandler :=
  if c.pwd_bytes = sh.owner_pw then
    ({ status := .owner, permission_flags := none },
     { sh with state := .authenticated .owner, cred := some c })
  else if c.pwd_bytes = sh.user_pw then
    ({ status := .user, permission_flags := some sh.perms },
     { sh with state := .authenticated .user, cred := some c })
  else
    ({ status := .failed, permission_flags := none },
     { sh with state := .authFailed })

/-- Modelled from the spec: the public key subfilter enumeration of
section 4.4. -/
inductive PubKeyAdbeSubFilter
  | s3
  | s4
  | s5
  deriving DecidableEq, Repr

/-- Modelled from the spec: the state of a public key security handler
(section 4.4): recipient list, permission flags, metadata flag, file
key, authentication state and retained credential. -/
structure PubKeySecurityHandler where
  subfilter : PubKeyAdbeSubFilter
  recipient_certs : List Nat
  perms : Int
  encrypt_metadata : Bool
  file_key : List Nat
  state : AuthState
  cred : Option EnvCred
  deriving DecidableEq, Repr

/-- Modelled from the spec: envelope authentication of the public key
handler (section 4.4).  The supplied decrypter matches when its
certificate is among the recipients and its private key corresponds to
that certificate; a match yields USER with the stored permissions, a
mismatch returns FAILED and latches the AUTH_FAILED state (section 7:
authentication failure is not an exception). -/
def PubKeySecurityHandler.authenticate (sh : PubKeySecurityHandler)
    (c : EnvCred) : AuthResult × PubKeySecurityHandler :=
  if c.cert ∈ sh.recipient_certs ∧ c.priv_key = c.cert then
    ({ status := .user, permission_flags := some sh.perms },
     { sh with state := .authenticated .user, cred := some c })
  else
    ({ status := .failed, permission_flags := none },
     { sh with state := .authFailed })

/-- Modelled from the spec: the two concrete security handler variants of
section 4 as a tagged sum. -/
inductive SecurityHandler
  | std (sh : StdSecurityHandler)
  | pubkey (sh : PubKeySecurityHandler)
  deriving DecidableEq, Repr

/-- Modelled from the spec: the credential sum (password or envelope). -/
inductive Credential
  | pwd (c : PwdCred)
  | envelope (c : EnvCred)
  deriving DecidableEq, Repr

/-- Authentication state of either handler variant. -/
def SecurityHandler.state : SecurityHandler → AuthState
  | .std s => s.state
  | .pubkey s => s.state

/-- File key of either handler variant. -/
def SecurityHandler.fileKey : SecurityHandler → List Nat
  | .std s => s.file_key
  | .pubkey s => s.file_key

/-- Metadata encryption flag of either handler variant. -/
def SecurityHandler.encryptMetadata : SecurityHandler → Bool
  | .std s => s.encrypt_metadata
  | .pubkey s => s.encrypt_metadata

/-- Modelled from the spec: the auth_failed latch of section 7, true
exactly when the handler sits in the AUTH_FAILED state. -/
def SecurityHandler.auth_failed (sh : SecurityHandler) : Bool :=
  match sh.state with
  | .authFailed => true
  | _ => false

/-- Modelled from the spec: authentication with an in-memory credential.
A credential of the wrong variant for the handler in use is a
PdfReadError (section 7). -/
def SecurityHandler.auth :
    SecurityHandler → Credential → Except Err (AuthResult × SecurityHandler)
  | .std s, .pwd c => .ok ((s.authenticate c).1, .std (s.authenticate c).2)
  | .pubkey s, .envelope c =>
      .ok ((s.authenticate c).1, .pubkey (s.authenticate c).2)
  | .std _, .envelope _ => .error .pdfReadError
  | .pubkey _, .pwd _ => .error .pdfReadError

/-- Modelled from the spec: credential extraction (section 4.3 and 6.2),
returning the serialised form of the retained credential when one is
held. -/
def SecurityHandler.extract_credential :
    SecurityHandler → Option SerialisedCredential
  | .std s => s.cred.map PwdCred.serialise
  | .pubkey s => s.cred.map EnvCred.serialise

/-- Modelled from the spec: authentication with a serialised credential,
section 6.2 and 7: the credential type must match the handler variant
and the payload must decode, otherwise a PdfReadError is raised. -/
def SecurityHandler.authenticate_serialised (sh : SecurityHandler)
    (sc : SerialisedCredential) : Except Err (AuthResult × SecurityHandler) :=
  match sh with
  | .std s =>
      if sc.credential_type = "pwd" then
        match decodePwdCred sc.data with
        | some c => .ok ((s.authenticate c).1, .std (s.authenticate c).2)
        | none => .error .pdfReadError
      else .error .pdfReadError
  | .pubkey s =>
      if sc.credential_type = "envelope" then
        match decodeEnvCred sc.data with
        | some c => .ok ((s.authenticate c).1, .pubkey (s.authenticate c).2)
        | none => .error .pdfReadError
      else .error .pdfReadError

/-- A credential that fails to authenticate against the given handler:
a password matching neither stored password, or an envelope decrypter
whose certificate and key do not match any recipient. -/
def SecurityHandler.wrongCred : SecurityHandler → Credential → Bool
  | .std s, .pwd c =>
      decide (c.pwd_bytes ≠ s.user_pw ∧ c.pwd_bytes ≠ s.owner_pw)
  | .pubkey s, .envelope c =>
      decide (¬ (c.cert ∈ s.recipient_certs ∧ c.priv_key = c.cert))
  | _, _ => false

/-- Modelled from the spec: object fetch through the decryption path
(sections 4.5 and 7).  A handler in the AUTH_FAILED state raises
PdfReadError on every fetch; a stream whose filter chain names the
Identity crypt filter is passed through untouched; anything else needs
an authenticated handler and is decrypted under the file key. -/
def SecurityHandler.fetchObject (sh : SecurityHandler) (stored : List Nat)
    (ovr : Option String) : Except Err (List Nat) :=
  if sh.state = .authFailed then .error .pdfReadError
  else if ovr = some "/Identity" then .ok stored
  else
    match sh.state with
    | .authenticated _ => .ok (decryptBytes sh.fileKey stored)
    | _ => .error .pdfReadError

/-- Modelled from the spec: stream encoding on the write path (sections
2 and 4.5).  A stream carrying a Crypt filter override naming the
Identity filter is stored as plaintext; every other stream is encrypted
under the file key (named non-identity overrides use the same abstract
cipher). -/
def encodeStream (sh : SecurityHandler) (plain : List Nat)
    (ovr : Option String) : List Nat :=
  if ovr = some "/Identity" then plain else encryptBytes sh.fileKey plain

/-- Byte rendering of the literal string Test document, as it occurs in
the metadata stream of the sample file used by the skipping-metadata
tests. -/
def testDocumentBytes : List Nat :=
  [84, 101, 115, 116, 32, 100, 111, 99, 117, 109, 101, 110, 116]

/-- Modelled from the spec: a crypt filter interface object (section
4.2): method name, key length, the two directions of the per-object
cipher and serialisation into a crypt filter dictionary. -/
structure CryptFilter where
  method : String
  keylen : Nat
  encrypt : Nat → Nat → List Nat → List Nat
  decrypt : Nat → Nat → List Nat → List Nat
  as_pdf_object : Except Err (List (String × String))

/-- Modelled from the spec: the identity crypt filter (section 4.2),
which returns input unchanged in both directions, reports key length 0
and cannot be serialised (PdfError, section 7). -/
def IdentityCryptFilter : CryptFilter :=
  { method := "/Identity"
    keylen := 0
    encrypt := fun _ _ data => data
    decrypt := fun _ _ data => data
    as_pdf_object := .error .pdfError }

/-- Modelled from the spec: the mutable state of a public key crypt
filter (sections 4.2 and 4.4): whether it acts as the document default,
the recipient envelopes gathered so far, whether a recipient set has
already been assigned, and whether the filter has been serialised. -/
structure PubKeyCryptFilter where
  acts_as_default : Bool
  recipient_envelopes : List Nat
  recipients_assigned : Bool
  serialized : Bool
  deriving DecidableEq, Repr

/-- Modelled from the spec: adding recipients to a public key crypt
filter (section 4.2): permitted only before the filter has been
serialised and, for per-filter (non-default) filters, only once;
violations are a PdfError (section 7). -/
def PubKeyCryptFilter.add_recipients (cf : PubKeyCryptFilter)
    (certs : List Nat) : Except Err PubKeyCryptFilter :=
  if cf.serialized then .error .pdfError
  else if cf.acts_as_default = false ∧ cf.recipients_assigned = true then
    .error .pdfError
  else
    .ok { cf with
          recipient_envelopes := cf.recipient_envelopes ++ certs,
          recipients_assigned := true }

/-- A crypt filter registry: method name to factory token. -/
abbrev CFRegistry := List (String × Nat)

/-- Modelled from the spec: the per-class crypt filter registries of
section 4.6, as a table from class identifiers to registries. -/
abbrev ClassTable := List (Nat × CFRegistry)

/-- Registry of a handler class in the table (empty when absent). -/
def lookupReg : ClassTable → Nat → CFRegistry
  | [], _ => []
  | (c, r) :: rest, cls => if c = cls then r else lookupReg rest cls

/-- Modelled from the spec: subclassing a security handler class copies
the parent registry into the subclass entry (sections 4.6 and 9). -/
def mkSubclass (t : ClassTable) (parent child : Nat) : ClassTable :=
  (child, lookupReg t parent) :: t

/-- Modelled from the spec: register_crypt_filter of section 4.6, adding
a factory to the registry of one class only. -/
def registerCryptFilter : ClassTable → Nat → String → Nat → ClassTable
  | [], _, _, _ => []
  | (c, r) :: rest, cls, m, f =>
      if c = cls then (c, (m, f) :: r) :: rest
      else (c, r) :: registerCryptFilter rest cls m f

/-- Modelled from the spec: the shape of an /Encrypt dictionary as far as
handler dispatch is concerned (sections 6.1 and 4.4): the /Filter name,
the optional /SubFilter name, and whether a /CF dictionary is present. -/
structure EncryptDict where
  filter : String
  subfilter : Option String
  has_cf : Bool
  deriving DecidableEq, Repr

/-- The handler class selected by dispatch. -/
inductive BuiltHandler
  | standard
  | pubKey (sf : PubKeyAdbeSubFilter)
  deriving DecidableEq, Repr

/-- Modelled from the spec: public key handler construction by
/SubFilter (section 4.4): s3 is deprecated and refused, s4 keeps
recipients at handler level and forbids crypt filters, s5 requires a
/CF dictionary; any other or absent subfilter is a PdfReadError. -/
def buildPubKeyHandler (d : EncryptDict) : Except Err BuiltHandler :=
  match d.subfilter with
  | some sf =>
      if sf = "/adbe.pkcs7.s3" then .error .pdfReadError
      else if sf = "/adbe.pkcs7.s4" then
        if d.has_cf then .error .pdfReadError else .ok (.pubKey .s4)
      else if sf = "/adbe.pkcs7.s5" then
        if d.has_cf then .ok (.pubKey .s5) else .error .pdfReadError
      else .error .pdfReadError
  | none => .error .pdfReadError

/-- Modelled from the spec: SecurityHandler.build of section 6.2.  The
handler registry is keyed by the /Filter name (section 2: the registry
selects the handler class); the name /Standard selects the standard
handler, and any other name, /Adobe.PubSec included, falls through to
/SubFilter based public key dispatch (section 4.4). -/
def SecurityHandler.build (d : EncryptDict) : Except Err BuiltHandler :=
  if d.filter = "/Standard" then .ok .standard
  else buildPubKeyHandler d

/-! ## Helper lemmas -/

/-- Decryption inverts encryption under the same key. -/
theorem decryptBytes_encryptBytes (key data : List Nat) :
    decryptBytes key (encryptBytes key data) = data := by
  simp [encryptBytes, decryptBytes, List.map_map, Function.comp_def]

/-- Password credential serialisation round trip. -/
theorem decodePwdCred_serialise (c : PwdCred) :
    decodePwdCred (c.serialise).data = some c := by
  obtain ⟨p, i⟩ := c
  cases i with
  | none =>
      simp [PwdCred.serialise, decodePwdCred, List.drop_left, List.take_left,
        Nat.le_add_right]
  | some i =>
      simp [PwdCred.serialise, decodePwdCred, List.drop_left, List.take_left,
        Nat.le_add_right]

/-- Envelope credential serialisation round trip. -/
theorem decodeEnvCred_serialise (c : EnvCred) :
    decodeEnvCred (c.serialise).data = some c := rfl

/-- On a successful authentication the handler moves to the authenticated
state matching the returned status, keeps its file key, and retains the
supplied credential. -/
theorem auth_ok_fields (sh : SecurityHandler) (c : Credential)
    (r : AuthResult) (sh' : SecurityHandler)
    (h : sh.auth c = .ok (r, sh')) (hs : r.status ≠ .failed) :
    sh'.state = .authenticated r.status ∧ sh'.fileKey = sh.fileKey := by
  cases sh with
  | std s =>
      cases c with
      | pwd c =>
          simp only [SecurityHandler.auth, Except.ok.injEq, Prod.mk.injEq] at h
          unfold StdSecurityHandler.authenticate at h
          split at h
          · obtain ⟨hr, hsh⟩ := h
            subst hr; subst hsh
            simp [SecurityHandler.state, SecurityHandler.fileKey]
          · split at h
            · obtain ⟨hr, hsh⟩ := h
              subst hr; subst hsh
              simp [SecurityHandler.state, SecurityHandler.fileKey]
            · obtain ⟨hr, _⟩ := h
              subst hr; simp at hs
      | envelope c => simp [SecurityHandler.auth] at h
  | pubkey s =>
      cases c with
      | pwd c => simp [SecurityHandler.auth] at h
      | envelope c =>
          simp only [SecurityHandler.auth, Except.ok.injEq, Prod.mk.injEq] at h
          unfold PubKeySecurityHandler.authenticate at h
          split at h
          · obtain ⟨hr, hsh⟩ := h
            subst hr; subst hsh
            simp [SecurityHandler.state, SecurityHandler.fileKey]
          · obtain ⟨hr, _⟩ := h
            subst hr; simp at hs

/-! ## Claim theorems -/

/-- Claim C1: for every requested key length n, check_key_length behaves
per version: under RC4_40 it returns 5 regardless of n; under AES256 it
returns 32 regardless of n; under RC4_LONGER_KEYS and RC4_OR_AES128 it
returns n when 5 <= n <= 16 and raises an error when n is outside that
range. -/
theorem check_key_length_spec (n : Nat) :
    SecurityHandlerVersion.rc4_40.check_key_length n = .ok 5
    ∧ SecurityHandlerVersion.aes256.check_key_length n = .ok 32
    ∧ (5 ≤ n → n ≤ 16 →
        SecurityHandlerVersion.rc4_longer_keys.check_key_length n = .ok n
        ∧ SecurityHandlerVersion.rc4_or_aes128.check_key_length n = .ok n)
    ∧ (n < 5 ∨ 16 < n →
        SecurityHandlerVersion.rc4_longer_keys.check_key_length n
          = .error .pdfError
        ∧ SecurityHandlerVersion.rc4_or_aes128.check_key_length n
          = .error .pdfError) := by
  refine ⟨rfl, rfl, fun h1 h2 => ?_, fun h => ?_⟩
  · constructor <;>
      simp [SecurityHandlerVersion.check_key_length, h1, h2]
  · have hn : ¬ (5 ≤ n ∧ n ≤ 16) := by omega
    constructor <;>
      simp [SecurityHandlerVersion.check_key_length, hn]

/-- Witness for C1 at the concrete lengths 6 (accepted) and 20
(rejected), matching the key length test. -/
theorem check_key_length_spec_witness :
    SecurityHandlerVersion.rc4_longer_keys.check_key_length 6 = .ok 6
    ∧ SecurityHandlerVersion.rc4_or_aes128.check_key_length 20
        = .error .pdfError :=
  ⟨((check_key_length_spec 6).2.2.1 (by decide) (by decide)).1,
   ((check_key_length_spec 20).2.2.2 (Or.inr (by decide))).2⟩

/-- Claim C5: for every input byte string and every object number and
generation pair, the identity crypt filter returns the input unchanged
in both directions, reports key length 0, and raises a PdfError on
serialisation. -/
theorem identity_crypt_filter_spec (obj_num gen : Nat) (data : List Nat) :
    IdentityCryptFilter.encrypt obj_num gen data = data
    ∧ IdentityCryptFilter.decrypt obj_num gen data = data
    ∧ IdentityCryptFilter.keylen = 0
    ∧ IdentityCryptFilter.as_pdf_object = .error .pdfError :=
  ⟨rfl, rfl, rfl, rfl⟩

/-- Claim C6: creating a subclass copies the parent crypt filter
registry (the subclass registry equals the parent registry, so it
contains all parent entries), and registering a crypt filter factory on
the subclass adds it to the subclass registry while leaving the parent
registry unchanged. -/
theorem subclass_registry_copy (t : ClassTable) (parent child : Nat)
    (m : String) (f : Nat) (h : child ≠ parent) :
    lookupReg (mkSubclass t parent child) child = lookupReg t parent
    ∧ lookupReg (registerCryptFilter (mkSubclass t parent child) child m f)
        child = (m, f) :: lookupReg t parent
    ∧ lookupReg (registerCryptFilter (mkSubclass t parent child) child m f)
        parent = lookupReg t parent := by
  refine ⟨?_, ?_, ?_⟩
  · simp [mkSubclass, lookupReg]
  · simp [mkSubclass, registerCryptFilter, lookupReg]
  · simp [mkSubclass, registerCryptFilter, lookupReg, h]

/-- Witness for C6: a parent class 0 with one registered method, a fresh
subclass 1, and a new factory registered on the subclass only. -/
theorem subclass_registry_copy_witness :
    lookupReg (mkSubclass [(0, [("/V2", 7)])] 0 1) 1 = [("/V2", 7)]
    ∧ lookupReg
        (registerCryptFilter (mkSubclass [(0, [("/V2", 7)])] 0 1) 1
          "/CustomCFType" 9) 1 = [("/CustomCFType", 9), ("/V2", 7)]
    ∧ lookupReg
        (registerCryptFilter (mkSubclass [(0, [("/V2", 7)])] 0 1) 1
          "/CustomCFType" 9) 0 = [("/V2", 7)] :=
  subclass_registry_copy [(0, [("/V2", 7)])] 0 1 "/CustomCFType" 9
    (by decide)

/-- Claim C9: for every per-filter (non-default) public key crypt filter
that has not yet been serialised and has no recipients assigned,
add_recipients succeeds once, and a second call on the result raises a
PdfError. -/
theorem add_recipients_once (cf : PubKeyCryptFilter)
    (certs1 certs2 : List Nat) (cf1 : PubKeyCryptFilter)
    (hdef : cf.acts_as_default = false)
    (hser : cf.serialized = false)
    (hfresh : cf.recipients_assigned = false)
    (h1 : cf.add_recipients certs1 = .ok cf1) :
    cf1.add_recipients certs2 = .error .pdfError := by
  unfold PubKeyCryptFilter.add_recipients at h1 ⊢
  rw [hser] at h1
  simp only [if_false, Bool.false_eq_true] at h1
  rw [if_neg (by simp [hfresh])] at h1
  obtain rfl := (Except.ok.injEq _ _).mp h1.symm
  simp [hser, hdef]

/-- Witness for C9: a fresh non-default public key crypt filter accepts
one recipient set and rejects a second one. -/
theorem add_recipients_once_witness :
    PubKeyCryptFilter.add_recipients
      { acts_as_default := false, recipient_envelopes := [3],
        recipients_assigned := true, serialized := false } [4]
      = .error .pdfError :=
  add_recipients_once
    { acts_as_default := false, recipient_envelopes := [],
      recipients_assigned := false, serialized := false }
    [3] [4]
    { acts_as_default := false, recipient_envelopes := [3],
      recipients_assigned := true, serialized := false }
    rfl rfl rfl rfl

/-- Claim C2: for every document encrypted by a standard security
handler with stored permission value P and distinct user and owner
passwords, authenticating with the owner password yields an AuthResult
whose permission_flags is null, and authenticating with the user
password yields an AuthResult whose permission_flags equals the stored
P (with status OWNER and USER respectively). -/
theorem std_auth_permission_flags (s : StdSecurityHandler)
    (i j : Option (List Nat)) (h : s.user_pw ≠ s.owner_pw) :
    (s.authenticate { pwd_bytes := s.owner_pw, id1 := i }).1
      = { status := .owner, permission_flags := none }
    ∧ (s.authenticate { pwd_bytes := s.user_pw, id1 := j }).1
      = { status := .user, permission_flags := some s.perms } := by
  constructor
  · simp [StdSecurityHandler.authenticate]
  · simp [StdSecurityHandler.authenticate, h]

/-- Witness for C2 with the passwords and permission value of the legacy
encryption test (owner ownersecret, user usersecret, P = -44). -/
theorem std_auth_permission_flags_witness :
    (StdSecurityHandler.authenticate
      { user_pw := [117, 115], owner_pw := [111, 119], perms := -44,
        encrypt_metadata := true, file_key := [1, 2],
        state := .uninitialized, cred := none }
      { pwd_bytes := [111, 119], id1 := none }).1
      = { status := .owner, permission_flags := none }
    ∧ (StdSecurityHandler.authenticate
      { user_pw := [117, 115], owner_pw := [111, 119], perms := -44,
        encrypt_metadata := true, file_key := [1, 2],
        state := .uninitialized, cred := none }
      { pwd_bytes := [117, 115], id1 := none }).1
      = { status := .user, permission_flags := some (-44) } :=
  std_auth_permission_flags
    { user_pw := [117, 115], owner_pw := [111, 119], perms := -44,
      encrypt_metadata := true, file_key := [1, 2],
      state := .uninitialized, cred := none }
    none none (by decide)

/-- Claim C3: for every handler and every wrong credential (a password
matching neither stored password, or an envelope decrypter matching no
recipient), authenticate returns status FAILED without raising, sets
the auth_failed latch on the handler, and every subsequent object fetch
on the resulting handler raises PdfReadError. -/
theorem wrong_credential_latch (sh : SecurityHandler) (c : Credential)
    (h : sh.wrongCred c = true) :
    ∃ sh', sh.auth c
        = .ok ({ status := .failed, permission_flags := none }, sh')
      ∧ sh'.auth_failed = true
      ∧ ∀ stored ovr, sh'.fetchObject stored ovr = .error .pdfReadError := by
  cases sh with
  | std s =>
      cases c with
      | pwd c =>
          simp only [SecurityHandler.wrongCred, decide_eq_true_eq] at h
          obtain ⟨hu, ho⟩ := h
          refine ⟨.std { s with state := .authFailed }, ?_, rfl, ?_⟩
          · simp [SecurityHandler.auth, StdSecurityHandler.authenticate,
              hu, ho]
          · intro stored ovr
            simp [SecurityHandler.fetchObject, SecurityHandler.state]
      | envelope c => simp [SecurityHandler.wrongCred] at h
  | pubkey s =>
      cases c with
      | pwd c => simp [SecurityHandler.wrongCred] at h
      | envelope c =>
          simp only [SecurityHandler.wrongCred, decide_eq_true_eq] at h
          refine ⟨.pubkey { s with state := .authFailed }, ?_, rfl, ?_⟩
          · simp [SecurityHandler.auth, PubKeySecurityHandler.authenticate,
              h]
          · intro stored ovr
            simp [SecurityHandler.fetchObject, SecurityHandler.state]

/-- Witness for C3: a standard handler rejecting the wrong password of
the wrong-password test. -/
theorem wrong_credential_latch_witness :
    ∃ sh', SecurityHandler.auth
        (.std { user_pw := [117], owner_pw := [111], perms := -44,
                encrypt_metadata := true, file_key := [5],
                state := .uninitialized, cred := none })
        (.pwd { pwd_bytes := [119, 114, 111, 110, 103], id1 := none })
        = .ok ({ status := .failed, permission_flags := none }, sh')
      ∧ sh'.auth_failed = true
      ∧ ∀ stored ovr, sh'.fetchObject stored ovr = .error .pdfReadError :=
  wrong_credential_latch
    (.std { user_pw := [117], owner_pw := [111], perms := -44,
            encrypt_metadata := true, file_key := [5],
            state := .uninitialized, cred := none })
    (.pwd { pwd_bytes := [119, 114, 111, 110, 103], id1 := none })
    (by decide)

/-- Claim C10: the empty string is accepted as a user password: for a
standard handler whose user password is empty (and whose owner password
is not), authenticating with the empty password succeeds with status
USER, reports the stored permissions, and the objects of the document
then decrypt to their original values. -/
theorem empty_user_password (s : StdSecurityHandler)
    (i : Option (List Nat)) (hu : s.user_pw = []) (ho : s.owner_pw ≠ []) :
    (s.authenticate { pwd_bytes := [], id1 := i }).1
      = { status := .user, permission_flags := some s.perms }
    ∧ ∀ d, (SecurityHandler.std
        (s.authenticate { pwd_bytes := [], id1 := i }).2).fetchObject
          (encryptBytes s.file_key d) none = .ok d := by
  have hstep : s.authenticate { pwd_bytes := [], id1 := i }
      = ({ status := .user, permission_flags := some s.perms },
         { s with state := .authenticated .user,
                  cred := some { pwd_bytes := [], id1 := i } }) := by
    simp [StdSecurityHandler.authenticate, hu, Ne.symm ho]
  refine ⟨by rw [hstep], fun d => ?_⟩
  rw [hstep]
  simp [SecurityHandler.fetchObject, SecurityHandler.state,
    SecurityHandler.fileKey, decryptBytes_encryptBytes]

/-- Witness for C10 with owner password ownersecret and an empty user
password, as in the empty user password test. -/
theorem empty_user_password_witness :
    (StdSecurityHandler.authenticate
      { user_pw := [],
        owner_pw := [111, 119, 110, 101, 114, 115, 101, 99, 114, 101, 116],
        perms := -4, encrypt_metadata := true, file_key := [9, 9],
        state := .uninitialized, cred := none }
      { pwd_bytes := [], id1 := none }).1
      = { status := .user, permission_flags := some (-4) }
    ∧ ∀ d, (SecurityHandler.std
        (StdSecurityHandler.authenticate
          { user_pw := [],
            owner_pw :=
              [111, 119, 110, 101, 114, 115, 101, 99, 114, 101, 116],
            perms := -4, encrypt_metadata := true, file_key := [9, 9],
            state := .uninitialized, cred := none }
          { pwd_bytes := [], id1 := none }).2).fetchObject
          (encryptBytes [9, 9] d) none = .ok d :=
  empty_user_password
    { user_pw := [],
      owner_pw := [111, 119, 110, 101, 114, 115, 101, 99, 114, 101, 116],
      perms := -4, encrypt_metadata := true, file_key := [9, 9],
      state := .uninitialized, cred := none }
    none rfl (by decide)

/-- A successful standard authentication retains the supplied
credential. -/
theorem std_auth_ok_cred (s : StdSecurityHandler) (c : PwdCred)
    (h : (s.authenticate c).1.status ≠ .failed) :
    (s.authenticate c).2.cred = some c := by
  unfold StdSecurityHandler.authenticate at h ⊢
  split
  · rfl
  · split
    · rfl
    · rename_i h1 h2
      rw [if_neg h1, if_neg h2] at h
      simp at h

/-- A successful public key authentication retains the supplied
credential. -/
theorem pubkey_auth_ok_cred (s : PubKeySecurityHandler) (c : EnvCred)
    (h : (s.authenticate c).1.status ≠ .failed) :
    (s.authenticate c).2.cred = some c := by
  unfold PubKeySecurityHandler.authenticate at h ⊢
  split
  · rfl
  · rename_i h1
    rw [if_neg h1] at h
    simp at h

/-- Authenticating with the serialised form of a password credential
is authenticating with the credential itself. -/
theorem auth_serialised_pwd (s : StdSecurityHandler) (c : PwdCred) :
    (SecurityHandler.std s).authenticate_serialised c.serialise
      = .ok ((s.authenticate c).1, .std (s.authenticate c).2) := by
  simp only [SecurityHandler.authenticate_serialised,
    decodePwdCred_serialise c]
  rw [if_pos (show (c.serialise).credential_type = "pwd" from rfl)]

/-- Authenticating with the serialised form of an envelope credential
is authenticating with the credential itself. -/
theorem auth_serialised_envelope (s : PubKeySecurityHandler) (c : EnvCred) :
    (SecurityHandler.pubkey s).authenticate_serialised c.serialise
      = .ok ((s.authenticate c).1, .pubkey (s.authenticate c).2) := by
  simp only [SecurityHandler.authenticate_serialised,
    decodeEnvCred_serialise c]
  rw [if_pos (show (c.serialise).credential_type = "envelope" from rfl)]

/-- Claim C4: for every handler that has been authenticated with some
credential, extracting the credential, serialising it, deserialising
the wire form, and authenticating a fresh handler for the same document
with the result yields the same auth status (in fact the same full
result) as the original authentication. -/
theorem credential_roundtrip (sh : SecurityHandler) (c : Credential)
    (r : AuthResult) (sh' : SecurityHandler)
    (hauth : sh.auth c = .ok (r, sh')) (hok : r.status ≠ .failed) :
    ∃ sc, sh'.extract_credential = some sc
      ∧ ∃ sh2, sh.authenticate_serialised sc = .ok (r, sh2) := by
  cases sh with
  | std s =>
      cases c with
      | pwd c =>
          simp only [SecurityHandler.auth, Except.ok.injEq,
            Prod.mk.injEq] at hauth
          obtain ⟨hr, hsh⟩ := hauth
          subst hr; subst hsh
          refine ⟨c.serialise, ?_, .std (s.authenticate c).2, ?_⟩
          · simp [SecurityHandler.extract_credential,
              std_auth_ok_cred s c hok]
          · exact auth_serialised_pwd s c
      | envelope c => simp [SecurityHandler.auth] at hauth
  | pubkey s =>
      cases c with
      | pwd c => simp [SecurityHandler.auth] at hauth
      | envelope c =>
          simp only [SecurityHandler.auth, Except.ok.injEq,
            Prod.mk.injEq] at hauth
          obtain ⟨hr, hsh⟩ := hauth
          subst hr; subst hsh
          refine ⟨c.serialise, ?_, .pubkey (s.authenticate c).2, ?_⟩
          · simp [SecurityHandler.extract_credential,
              pubkey_auth_ok_cred s c hok]
          · exact auth_serialised_envelope s c

/-- Witness for C4: a standard handler authenticated with the user
password; the extracted credential re-authenticates with the same
result. -/
theorem credential_roundtrip_witness :
    ∃ sc, SecurityHandler.extract_credential
        (.std { user_pw := [117], owner_pw := [111], perms := -44,
                encrypt_metadata := true, file_key := [3],
                state := .authenticated .user,
                cred := some { pwd_bytes := [117], id1 := none } })
        = some sc
      ∧ ∃ sh2, SecurityHandler.authenticate_serialised
          (.std { user_pw := [117], owner_pw := [111], perms := -44,
                  encrypt_metadata := true, file_key := [3],
                  state := .uninitialized, cred := none }) sc
          = .ok ({ status := .user, permission_flags := some (-44) }, sh2) :=
  credential_roundtrip
    (.std { user_pw := [117], owner_pw := [111], perms := -44,
            encrypt_metadata := true, file_key := [3],
            state := .uninitialized, cred := none })
    (.pwd { pwd_bytes := [117], id1 := none })
    { status := .user, permission_flags := some (-44) }
    (.std { user_pw := [117], owner_pw := [111], perms := -44,
            encrypt_metadata := true, file_key := [3],
            state := .authenticated .user,
            cred := some { pwd_bytes := [117], id1 := none } })
    rfl (by decide)

/-- Counterexample to claim C7 as stated: the dictionary with /Filter
/Standard (a name other than /Adobe.PubSec) and no /SubFilter is built
as a standard handler by registry dispatch, not rejected with a
PdfReadError as the claim requires for an absent subfilter; likewise a
recognized pubkey subfilter under /Filter /Standard would not produce a
public key handler. -/
theorem build_standard_filter_cx :
    SecurityHandler.build
      { filter := "/Standard", subfilter := none, has_cf := false }
      = .ok .standard
    ∧ SecurityHandler.build
      { filter := "/Standard", subfilter := none, has_cf := false }
      ≠ .error .pdfReadError := by
  refine ⟨rfl, fun h => ?_⟩
  rw [show SecurityHandler.build
      { filter := "/Standard", subfilter := none, has_cf := false }
      = .ok .standard from rfl] at h
  exact Except.noConfusion h

/-- Claim C7 (amended): when building a security handler from an
/Encrypt dictionary whose /Filter name is not a registered handler name
(neither /Adobe.PubSec nor /Standard), dispatch still proceeds by
/SubFilter: the supported pubkey subfilter adbe.pkcs7.s5 with a /CF
dictionary present yields a PubKeySecurityHandler, as does
adbe.pkcs7.s4 without /CF, while an unrecognized or absent subfilter is
a PdfReadError. -/
theorem build_subfilter_dispatch (d : EncryptDict)
    (_h0 : d.filter ≠ "/Adobe.PubSec") (h1 : d.filter ≠ "/Standard") :
    (d.subfilter = some "/adbe.pkcs7.s5" → d.has_cf = true →
      SecurityHandler.build d = .ok (.pubKey .s5))
    ∧ (d.subfilter = some "/adbe.pkcs7.s4" → d.has_cf = false →
      SecurityHandler.build d = .ok (.pubKey .s4))
    ∧ (∀ sf, d.subfilter = some sf → sf ≠ "/adbe.pkcs7.s3" →
        sf ≠ "/adbe.pkcs7.s4" → sf ≠ "/adbe.pkcs7.s5" →
        SecurityHandler.build d = .error .pdfReadError)
    ∧ (d.subfilter = none → SecurityHandler.build d = .error .pdfReadError)
    := by
  refine ⟨fun hs hcf => ?_, fun hs hcf => ?_, fun sf hs hn3 hn4 hn5 => ?_,
    fun hs => ?_⟩
  · simp [SecurityHandler.build, buildPubKeyHandler, h1, hs, hcf]
  · simp [SecurityHandler.build, buildPubKeyHandler, h1, hs, hcf]
  · simp [SecurityHandler.build, buildPubKeyHandler, h1, hs, hn3, hn4, hn5]
  · simp [SecurityHandler.build, buildPubKeyHandler, h1, hs]

/-- Witness for the amended C7: an unregistered /Filter name with the
s5 subfilter and a /CF dictionary yields the public key handler. -/
theorem build_subfilter_dispatch_witness :
    SecurityHandler.build
      { filter := "/FooBar", subfilter := some "/adbe.pkcs7.s5",
        has_cf := true }
      = .ok (.pubKey .s5) :=
  (build_subfilter_dispatch
    { filter := "/FooBar", subfilter := some "/adbe.pkcs7.s5",
      has_cf := true }
    (by decide) (by decide)).1 rfl rfl

/-- Claim C8: for a document written with encrypt_metadata set to false
and a Crypt Identity filter applied to the metadata stream, the encoded
data of the metadata stream is stored as plaintext and so contains the
literal Test document before any authentication, and the metadata
stream is readable before authentication, while every stream encrypted
under the default filter raises PdfReadError before authentication and
decrypts to its original bytes once a valid credential has been
supplied. -/
theorem metadata_bypass (sh : SecurityHandler) (a b : List Nat)
    (_hmeta : sh.encryptMetadata = false)
    (hstate : sh.state = .uninitialized)
    (c : Credential) (r : AuthResult) (sh' : SecurityHandler)
    (hauth : sh.auth c = .ok (r, sh')) (hok : r.status ≠ .failed) :
    encodeStream sh (a ++ testDocumentBytes ++ b) (some "/Identity")
      = a ++ testDocumentBytes ++ b
    ∧ sh.fetchObject
        (encodeStream sh (a ++ testDocumentBytes ++ b) (some "/Identity"))
        (some "/Identity")
      = .ok (a ++ testDocumentBytes ++ b)
    ∧ (∀ d, sh.fetchObject (encodeStream sh d none) none
        = .error .pdfReadError)
    ∧ (∀ d, sh'.fetchObject (encodeStream sh d none) none = .ok d) := by
  obtain ⟨hst, hkey⟩ := auth_ok_fields sh c r sh' hauth hok
  refine ⟨?_, ?_, fun d => ?_, fun d => ?_⟩
  · simp [encodeStream]
  · simp [SecurityHandler.fetchObject, encodeStream, hstate]
  · simp [SecurityHandler.fetchObject, encodeStream, hstate]
  · simp [SecurityHandler.fetchObject, encodeStream, hst, hkey,
      decryptBytes_encryptBytes]

/-- Witness for C8: a standard handler with encrypt_metadata false, the
metadata bytes being exactly the literal Test document, authenticated
with the owner password secret (both passwords equal, as in the
skipping-metadata test). -/
theorem metadata_bypass_witness :
    encodeStream
      (.std { user_pw := [115], owner_pw := [115], perms := -44,
              encrypt_metadata := false, file_key := [6],
              state := .uninitialized, cred := none })
      ([] ++ testDocumentBytes ++ []) (some "/Identity")
      = [] ++ testDocumentBytes ++ []
    ∧ SecurityHandler.fetchObject
        (.std { user_pw := [115], owner_pw := [115], perms := -44,
                encrypt_metadata := false, file_key := [6],
                state := .uninitialized, cred := none })
        (encodeStream
          (.std { user_pw := [115], owner_pw := [115], perms := -44,
                  encrypt_metadata := false, file_key := [6],
                  state := .uninitialized, cred := none })
          ([] ++ testDocumentBytes ++ []) (some "/Identity"))
        (some "/Identity")
      = .ok ([] ++ testDocumentBytes ++ [])
    ∧ (∀ d, SecurityHandler.fetchObject
        (.std { user_pw := [115], owner_pw := [115], perms := -44,
                encrypt_metadata := false, file_key := [6],
                state := .uninitialized, cred := none })
        (encodeStream
          (.std { user_pw := [115], owner_pw := [115], perms := -44,
                  encrypt_metadata := false, file_key := [6],
                  state := .uninitialized, cred := none }) d none) none
        = .error .pdfReadError)
    ∧ (∀ d, SecurityHandler.fetchObject
        (.std { user_pw := [115], owner_pw := [115], perms := -44,
                encrypt_metadata := false, file_key := [6],
                state := .authenticated .owner,
                cred := some { pwd_bytes := [115], id1 := none } })
        (encodeStream
          (.std { user_pw := [115], owner_pw := [115], perms := -44,
                  encrypt_metadata := false, file_key := [6],
                  state := .uninitialized, cred := none }) d none) none
        = .ok d) :=
  metadata_bypass
    (.std { user_pw := [115], owner_pw := [115], perms := -44,
            encrypt_metadata := false, file_key := [6],
            state := .uninitialized, cred := none })
    [] []
    rfl rfl
    (.pwd { pwd_bytes := [115], id1 := none })
    { status := .owner, permission_flags := none }
    (.std { user_pw := [115], owner_pw := [115], perms := -44,
            encrypt_metadata := false, file_key := [6],
            state := .authenticated .owner,
            cred := some { pwd_bytes := [115], id1 := none } })
    rfl (by decide)
